import Mathlib

/-!
Shallow embedding of the DeepCode frontend task-streaming core:
the Zustand workflow store (`src/new_ui/frontend/src/stores/workflowStore.ts`),
the streaming frame handler (`useStreaming`), the recovery hook
(`src/new_ui/frontend/src/hooks/useTaskRecovery.ts`) and the WebSocket
reconnect loop (`src/new_ui/frontend/src/hooks/useWebSocket.ts`).

TypeScript numbers are modelled as `Int`, nullable strings as `Option String`,
and the opaque `Record<string, unknown>` result payload as `String` (the code
never inspects it). JavaScript truthiness on strings ("" is falsy) is modelled
explicitly where the code relies on it.
-/

namespace DeepCode

/-- `WorkflowStatus` from `types/workflow.ts`:
`'idle' | 'running' | 'completed' | 'error' | 'cancelled'`. -/
inductive WorkflowStatus where
  | idle
  | running
  | completed
  | error
  | cancelled
  deriving DecidableEq, Repr

/-- Step status from `WorkflowStep.status`:
`'pending' | 'active' | 'completed' | 'error'`. -/
inductive StepStatus where
  | pending
  | active
  | completed
  | error
  deriving DecidableEq, Repr

/-- `WorkflowStep` from `types/workflow.ts`. The `progress` field is the
step's threshold. -/
structure WorkflowStep where
  id : String
  title : String
  subtitle : String
  progress : Int
  status : StepStatus
  deriving DecidableEq, Repr

/-- Log entry kind from `workflowStore.ts`:
`'info' | 'success' | 'warning' | 'error' | 'progress'`. -/
inductive LogType where
  | info
  | success
  | warning
  | error
  | progress
  deriving DecidableEq, Repr

/-- `ActivityLogEntry` from `workflowStore.ts`. The `timestamp` is the
`Date.now()` millisecond count. -/
structure ActivityLogEntry where
  id : String
  timestamp : Nat
  message : String
  progress : Int
  type : LogType
  deriving DecidableEq, Repr

/-- Ambient nondeterminism consumed by `addActivityLog`: `Date.now()` and the
`Math.random().toString(36).substr(2, 9)` suffix. -/
structure LogMeta where
  now : Nat
  rand : String
  deriving DecidableEq, Repr

/-- `PendingInteraction` from `workflowStore.ts`. `data` is an opaque payload;
`options` is the `Record<string, string>` as an association list. -/
structure PendingInteraction where
  type : String
  title : String
  description : String
  data : String
  options : List (String × String)
  required : Bool
  deriving DecidableEq, Repr

/-- `workflowType` values: `'paper-to-code' | 'chat-planning'`. -/
inductive WorkflowType where
  | paperToCode
  | chatPlanning
  deriving DecidableEq, Repr

/-- The data fields of the Zustand `WorkflowState` (actions are modelled as
functions on this record below). -/
structure WorkflowState where
  activeTaskId : Option String
  workflowType : Option WorkflowType
  status : WorkflowStatus
  progress : Int
  message : String
  steps : List WorkflowStep
  currentStepIndex : Int
  streamedCode : String
  currentFile : Option String
  generatedFiles : List String
  activityLogs : List ActivityLogEntry
  pendingInteraction : Option PendingInteraction
  isWaitingForInput : Bool
  result : Option String
  error : Option String
  needsRecovery : Bool
  deriving DecidableEq, Repr

/-- `initialState` from `workflowStore.ts`. -/
def initialState : WorkflowState where
  activeTaskId := none
  workflowType := none
  status := .idle
  progress := 0
  message := ""
  steps := []
  currentStepIndex := -1
  streamedCode := ""
  currentFile := none
  generatedFiles := []
  activityLogs := []
  pendingInteraction := none
  isWaitingForInput := false
  result := none
  error := none
  needsRecovery := false

/-- JavaScript truthiness of a nullable string: `null` and `""` are falsy. -/
def strTruthy : Option String → Bool
  | none => false
  | some s => s ≠ ""

/-- `PAPER_TO_CODE_STEPS` from `types/workflow.ts`. -/
def PAPER_TO_CODE_STEPS : List WorkflowStep :=
  [ ⟨"init", "Initialize", "Load systems", 5, .pending⟩,
    ⟨"analyze", "Analyze", "Parse paper", 10, .pending⟩,
    ⟨"download", "Download", "Collect refs", 25, .pending⟩,
    ⟨"plan", "Plan", "Blueprint", 40, .pending⟩,
    ⟨"references", "References", "Key refs", 50, .pending⟩,
    ⟨"repos", "Repos", "GitHub sync", 60, .pending⟩,
    ⟨"index", "Index", "Vectorize", 70, .pending⟩,
    ⟨"implement", "Implement", "Code gen", 85, .pending⟩ ]

/-- `CHAT_PLANNING_STEPS` from `types/workflow.ts`. -/
def CHAT_PLANNING_STEPS : List WorkflowStep :=
  [ ⟨"init", "Initialize", "Boot agents", 5, .pending⟩,
    ⟨"plan", "Plan", "Analyze intent", 30, .pending⟩,
    ⟨"setup", "Setup", "Workspace", 50, .pending⟩,
    ⟨"draft", "Draft", "Generate plan", 70, .pending⟩,
    ⟨"implement", "Implement", "Code gen", 85, .pending⟩ ]

/-! ## Store actions (`workflowStore.ts`) -/

/-- `setActiveTask(taskId, workflowType)`: `workflowType ?? get().workflowType`. -/
def setActiveTask (taskId : Option String) (wt : Option WorkflowType)
    (st : WorkflowState) : WorkflowState :=
  { st with
    activeTaskId := taskId
    workflowType := match wt with
      | some w => some w
      | none => st.workflowType }

/-- `setStatus(status)`. -/
def setStatus (status : WorkflowStatus) (st : WorkflowState) : WorkflowState :=
  { st with status := status }

/-- Default used only to read list elements at in-bounds indices. -/
def stepDefault : WorkflowStep := ⟨"", "", "", 0, .pending⟩

/-- The downward scan of `updateProgress`:
`for (let i = steps.length - 1; i >= 0; i--) if (progress >= steps[i].progress)
{ currentStepIndex = i; break; }` — called with fuel `n = steps.length`, it
returns the greatest `i < n` with `steps[i].progress ≤ progress`, else `-1`. -/
def findStepIndexFrom (steps : List WorkflowStep) (progress : Int) : Nat → Int
  | 0 => -1
  | n + 1 =>
    if (steps.getD n stepDefault).progress ≤ progress then (n : Int)
    else findStepIndexFrom steps progress n

/-- The `currentStepIndex` computed by `updateProgress`. -/
def currentStepIndexOf (steps : List WorkflowStep) (progress : Int) : Int :=
  findStepIndexFrom steps progress steps.length

/-- The per-step status assignment in `updateProgress`'s `steps.map`. -/
def stepStatusAt (isComplete : Bool) (currentStepIndex : Int) (index : Nat) :
    StepStatus :=
  if isComplete then .completed
  else if (index : Int) < currentStepIndex then .completed
  else if (index : Int) = currentStepIndex then .active
  else .pending

/-- `updateProgress(progress, message)` from `workflowStore.ts` lines 125-159:
recomputes `currentStepIndex` by the downward scan, marks all steps completed
when `progress >= 100`, and stores the frame's progress value. -/
def updateProgress (progress : Int) (message : String) (st : WorkflowState) :
    WorkflowState :=
  let steps := st.steps
  let currentStepIndex := currentStepIndexOf steps progress
  let isComplete : Bool := progress ≥ 100
  let updatedSteps := steps.mapIdx fun index step =>
    { step with status := stepStatusAt isComplete currentStepIndex index }
  { st with
    progress := progress
    message := message
    currentStepIndex := if isComplete then (steps.length : Int) - 1
      else currentStepIndex
    steps := updatedSteps }

/-- `setSteps(steps)`. -/
def setSteps (steps : List WorkflowStep) (st : WorkflowState) : WorkflowState :=
  { st with steps := steps }

/-- `appendStreamedCode(chunk)`. -/
def appendStreamedCode (chunk : String) (st : WorkflowState) : WorkflowState :=
  { st with streamedCode := st.streamedCode ++ chunk }

/-- `setCurrentFile(filename)`. -/
def setCurrentFile (filename : Option String) (st : WorkflowState) :
    WorkflowState :=
  { st with currentFile := filename }

/-- `addGeneratedFile(filename)`. -/
def addGeneratedFile (filename : String) (st : WorkflowState) : WorkflowState :=
  { st with generatedFiles := st.generatedFiles ++ [filename] }

/-- `addActivityLog(message, progress, type)`: unconditionally appends an entry
whose id is `log-${Date.now()}-${random}`. -/
def addActivityLog (message : String) (progress : Int) (type : LogType)
    (meta : LogMeta) (st : WorkflowState) : WorkflowState :=
  { st with
    activityLogs := st.activityLogs ++
      [ { id := "log-" ++ toString meta.now ++ "-" ++ meta.rand
          timestamp := meta.now
          message := message
          progress := progress
          type := type } ] }

/-- `setPendingInteraction(interaction)`: also sets
`isWaitingForInput: interaction !== null`. -/
def setPendingInteraction (interaction : Option PendingInteraction)
    (st : WorkflowState) : WorkflowState :=
  { st with
    pendingInteraction := interaction
    isWaitingForInput := interaction.isSome }

/-- `clearInteraction()`. -/
def clearInteraction (st : WorkflowState) : WorkflowState :=
  { st with pendingInteraction := none, isWaitingForInput := false }

/-- `setResult(result)`. -/
def setResult (result : Option String) (st : WorkflowState) : WorkflowState :=
  { st with result := result }

/-- `setError(error)`: `set({ error, status: error ? 'error' : get().status })`;
a null or empty error string leaves the status unchanged (JS truthiness). -/
def setError (error : Option String) (st : WorkflowState) : WorkflowState :=
  { st with
    error := error
    status := if strTruthy error then .error else st.status }

/-- `setNeedsRecovery(needs)`. -/
def setNeedsRecovery (needs : Bool) (st : WorkflowState) : WorkflowState :=
  { st with needsRecovery := needs }

/-- `reset()`: clears the persisted key and replaces every data field with
`initialState`. -/
def reset (_st : WorkflowState) : WorkflowState :=
  initialState

/-! ## Persisted projection (`partialize`, `workflowStore.ts` lines 236-248) -/

/-- The persisted blob shape written by `partialize`. -/
structure PersistedProjection where
  activeTaskId : Option String
  workflowType : Option WorkflowType
  status : WorkflowStatus
  progress : Int
  steps : List WorkflowStep
  isWaitingForInput : Bool
  deriving DecidableEq, Repr

/-- `partialize(state)`: persists live values only while the task is running
or waiting for input, otherwise reduces to the inert shape. -/
def partialize (st : WorkflowState) : PersistedProjection :=
  let isActive : Bool := st.status = .running || st.isWaitingForInput
  { activeTaskId := if isActive then st.activeTaskId else none
    workflowType := if isActive then st.workflowType else none
    status := if isActive then st.status else .idle
    progress := if isActive then st.progress else 0
    steps := if isActive then st.steps else []
    isWaitingForInput := st.isWaitingForInput }

/-! ## Inbound frames and the `useStreaming` message handler -/

/-- The tagged union of inbound WebSocket frames (`types/api.ts` as consumed
by `useStreaming`). Optional fields are `Option`s; `result` and interaction
`data` are opaque payloads. -/
inductive WSMessage where
  | progressMsg (progress : Option Int) (message : Option String)
  | statusMsg (progress : Option Int) (message : Option String)
      (status : Option String)
  | interactionRequired (interaction_type : String) (title : String)
      (description : String) (data : String)
      (options : List (String × String)) (required : Bool)
  | complete (result : String)
  | errorMsg (error : String)
  | codeChunk (content : Option String)
  | fileStart (filename : Option String)
  | fileEnd (filename : Option String)
  | heartbeat
  deriving DecidableEq, Repr

/-- JavaScript `String.prototype.trim()`: strips whitespace from both ends. -/
def jsTrim (s : String) : String :=
  ⟨((s.data.dropWhile Char.isWhitespace).reverse.dropWhile
      Char.isWhitespace).reverse⟩

/-- The guard `message.message && message.message.trim()` used before logging
a progress or status frame. -/
def msgLoggable : Option String → Bool
  | none => false
  | some s => s ≠ "" && jsTrim s ≠ ""

/-- `handleMessage` from `useStreaming` (`src/unnamed/part_002` lines 35-139):
dispatches one parsed frame into the workflow store. `meta` supplies the
`Date.now()`/`Math.random()` values any appended log entry consumes. -/
def handleMessage (message : WSMessage) (meta : LogMeta) (st : WorkflowState) :
    WorkflowState :=
  match message with
  | .progressMsg none _ => st
  | .progressMsg (some p) msg =>
    let st1 := updateProgress p (msg.getD "") st
    if msgLoggable msg then addActivityLog (msg.getD "") p .progress meta st1
    else st1
  | .statusMsg none _ _ => st
  | .statusMsg (some p) msg _ =>
    let st1 := updateProgress p (msg.getD "") st
    if msgLoggable msg then addActivityLog (msg.getD "") p .info meta st1
    else st1
  | .interactionRequired itype title description data options required =>
    let st1 := addActivityLog ("⏸️ Waiting for input: " ++ title) 0 .info meta st
    setPendingInteraction
      (some ⟨itype, title, description, data, options, required⟩) st1
  | .complete result =>
    let st1 := setStatus .completed st
    let st2 := setResult (some result) st1
    let st3 := clearInteraction st2
    let st4 := updateProgress 100 "Workflow completed successfully" st3
    addActivityLog "✅ Workflow completed successfully!" 100 .success meta st4
  | .errorMsg e =>
    if e = "Task not found" then
      reset st
    else
      let st1 := setStatus .error st
      let st2 := setError (some e) st1
      let st3 := clearInteraction st2
      addActivityLog ("❌ Error: " ++ e) 0 .error meta st3
  | .codeChunk content =>
    if strTruthy content then appendStreamedCode (content.getD "") st else st
  | .fileStart filename =>
    if strTruthy filename then setCurrentFile filename st else st
  | .fileEnd filename =>
    if strTruthy filename then
      setCurrentFile none (addGeneratedFile (filename.getD "") st)
    else st
  | .heartbeat => st

/-- Fold a sequence of frames (with their log metadata) through the handler,
in receipt order. -/
def applyFrames (frames : List (WSMessage × LogMeta)) (st : WorkflowState) :
    WorkflowState :=
  frames.foldl (fun s fm => handleMessage fm.1 fm.2 s) st

/-- `isFinished` in `useStreaming`:
`status === 'completed' || status === 'error'`. -/
def isFinished (status : WorkflowStatus) : Bool :=
  status = .completed || status = .error

/-- The computed workflow subscription endpoint
(`taskId && !isFinished ? \x7b/ws/workflow/...\x7d : null`): null once the store
considers the task finished, so no Channel is opened. -/
def workflowUrl (taskId : Option String) (status : WorkflowStatus) :
    Option String :=
  if strTruthy taskId && !(isFinished status) then
    some ("/ws/workflow/" ++ taskId.getD "")
  else none

/-- The computed code-stream subscription endpoint, same shape. -/
def codeStreamUrl (taskId : Option String) (status : WorkflowStatus) :
    Option String :=
  if strTruthy taskId && !(isFinished status) then
    some ("/ws/code-stream/" ++ taskId.getD "")
  else none

/-! ## Recovery coordinator (`useTaskRecovery.ts`) -/

/-- The `GET status(taskId)` response consumed by `recoverTask`. -/
structure TaskStatusResponse where
  status : String
  progress : Int
  message : String
  result : Option String
  error : Option String
  deriving DecidableEq, Repr

/-- The hook's local `RecoveryState`. -/
structure RecoveryState where
  isRecovering : Bool
  recoveredTaskId : Option String
  error : Option String
  deriving DecidableEq, Repr

/-- `recoverTask` from `useTaskRecovery.ts` lines 46-143. The status query is
an `Except`: `.ok` is a response, `.error` is any failure of the query itself
(404 not-found, network error, timeout). Returns the final workflow state and
the final `RecoveryState`. -/
def recoverTask (st : WorkflowState) (rs : RecoveryState)
    (query : Except String TaskStatusResponse) :
    WorkflowState × RecoveryState :=
  if !(strTruthy st.activeTaskId) || st.status = .idle ||
      st.status = .completed || st.status = .error then
    (st, rs)
  else
    match query with
    | .error _ =>
      (reset st, { isRecovering := false, recoveredTaskId := none, error := none })
    | .ok ts =>
      if ts.status = "running" then
        let st1 :=
          if st.workflowType = some .paperToCode then
            setSteps PAPER_TO_CODE_STEPS st
          else if st.workflowType = some .chatPlanning then
            setSteps CHAT_PLANNING_STEPS st
          else st
        let st2 := updateProgress ts.progress ts.message st1
        let st3 := setStatus .running st2
        let st4 := setNeedsRecovery false st3
        (st4, { isRecovering := false, recoveredTaskId := st.activeTaskId,
                error := none })
      else if ts.status = "completed" then
        let st1 :=
          if st.workflowType = some .paperToCode then
            setSteps PAPER_TO_CODE_STEPS st
          else if st.workflowType = some .chatPlanning then
            setSteps CHAT_PLANNING_STEPS st
          else st
        let st2 := updateProgress 100 "Completed" st1
        let st3 := setStatus .completed st2
        let st4 := setResult ts.result st3
        let st5 := setNeedsRecovery false st4
        (st5, { isRecovering := false, recoveredTaskId := st.activeTaskId,
                error := none })
      else if ts.status = "error" then
        let st1 := setStatus .error st
        let st2 := setError (some (ts.error.getD "Unknown error")) st1
        let st3 := setNeedsRecovery false st2
        (st3, { isRecovering := false, recoveredTaskId := st.activeTaskId,
                error := ts.error })
      else
        (reset st, { isRecovering := false, recoveredTaskId := none,
                     error := none })

/-! ## WebSocket reconnect loop (`useWebSocket.ts`) -/

/-- The reconnect-relevant options of `useWebSocket`, with their defaults
(`reconnect = true`, `reconnectInterval = 3000`, `maxReconnectAttempts = 50`);
`useStreaming` passes `reconnect: true` and leaves the rest defaulted. -/
structure WSOptions where
  reconnect : Bool
  reconnectInterval : Nat
  maxReconnectAttempts : Nat
  deriving DecidableEq, Repr

/-- The defaults from `useWebSocket.ts` lines 23-25. -/
def defaultWSOptions : WSOptions :=
  { reconnect := true, reconnectInterval := 3000, maxReconnectAttempts := 50 }

/-- The mutable refs of the reconnect loop: the attempt counter, the
intentional-close flag (`shouldReconnectRef`), the pending reconnect timer
(holding its delay in ms when set), and the connection flag. -/
structure WSState where
  reconnectAttempts : Nat
  shouldReconnect : Bool
  pendingReconnect : Option Nat
  isConnected : Bool
  deriving DecidableEq, Repr

/-- `connect()` as it affects the reconnect refs: re-arms
`shouldReconnectRef.current = true` before opening a socket. -/
def wsConnect (s : WSState) : WSState :=
  { s with shouldReconnect := true }

/-- `ws.onopen`: marks connected and resets the attempt counter to zero. -/
def wsOnOpen (s : WSState) : WSState :=
  { s with isConnected := true, reconnectAttempts := 0 }

/-- `ws.onclose`: schedules a reconnect after `reconnectInterval` only when
the close was not intentional, reconnection is enabled, and the attempt
counter is below the maximum. -/
def wsOnClose (opts : WSOptions) (s : WSState) : WSState :=
  let s1 := { s with isConnected := false }
  if s1.shouldReconnect && opts.reconnect &&
      s1.reconnectAttempts < opts.maxReconnectAttempts then
    { s1 with pendingReconnect := some opts.reconnectInterval }
  else s1

/-- The scheduled timer firing: increments the attempt counter and calls
`connect()`. A no-op when no timer is pending. -/
def wsTimerFire (s : WSState) : WSState :=
  match s.pendingReconnect with
  | none => s
  | some _ =>
    wsConnect { s with pendingReconnect := none,
                       reconnectAttempts := s.reconnectAttempts + 1 }

/-- `disconnect()`: marks the close as intentional, clears any pending
reconnect timer and closes the socket. -/
def wsDisconnect (s : WSState) : WSState :=
  { s with shouldReconnect := false, pendingReconnect := none,
           isConnected := false }

/-- Transport-level events that can reach the hook after a `disconnect()`
without the owner calling `connect()` again. -/
inductive WSEvent where
  | evOpen
  | evClose
  | evTimerFire
  deriving DecidableEq, Repr

/-- Apply one transport event. -/
def wsStep (opts : WSOptions) (s : WSState) : WSEvent → WSState
  | .evOpen => wsOnOpen s
  | .evClose => wsOnClose opts s
  | .evTimerFire => wsTimerFire s

/-- Apply a sequence of transport events in order. -/
def wsRun (opts : WSOptions) (s : WSState) (evs : List WSEvent) : WSState :=
  evs.foldl (wsStep opts) s

/-! ## Helper lemmas -/

/-- Reading an in-bounds index of `mapIdx` applies the function at that
index. -/
theorem getD_mapIdx {α : Type} (l : List α) (f : Nat → α → α) (j : Nat)
    (d : α) (hj : j < l.length) :
    (l.mapIdx f).getD j d = f j (l.getD j d) := by
  have hj' : j < (l.mapIdx f).length := by
    simpa [List.length_mapIdx] using hj
  rw [List.getD_eq_getElem _ _ hj', List.getD_eq_getElem _ _ hj]
  simp [List.get_eq_getElem]

/-- The downward scan never returns an index at or above its fuel. -/
theorem findStepIndexFrom_lt (steps : List WorkflowStep) (p : Int) (n : Nat) :
    findStepIndexFrom steps p n < (n : Int) := by
  induction n with
  | zero => simp [findStepIndexFrom]
  | succ k ih =>
    rw [findStepIndexFrom]
    split
    · omega
    · have := ih
      omega

/-- The downward scan never returns a value below `-1`. -/
theorem neg_one_le_findStepIndexFrom (steps : List WorkflowStep) (p : Int)
    (n : Nat) : -1 ≤ findStepIndexFrom steps p n := by
  induction n with
  | zero => simp [findStepIndexFrom]
  | succ k ih =>
    rw [findStepIndexFrom]
    split
    · omega
    · exact ih

/-- Maximality: every in-fuel index whose threshold is met is at most the
returned index. -/
theorem le_findStepIndexFrom (steps : List WorkflowStep) (p : Int)
    (n j : Nat) (hjn : j < n)
    (hle : (steps.getD j stepDefault).progress ≤ p) :
    (j : Int) ≤ findStepIndexFrom steps p n := by
  induction n with
  | zero => omega
  | succ k ih =>
    rw [findStepIndexFrom]
    split
    · rename_i hcond
      omega
    · rename_i hcond
      have hjk : j ≠ k := by
        rintro rfl
        exact hcond hle
      exact ih (by omega)

/-- Soundness: a non-negative returned index is in fuel range and its
threshold is met. -/
theorem findStepIndexFrom_spec_mem (steps : List WorkflowStep) (p : Int)
    (n : Nat) (h : 0 ≤ findStepIndexFrom steps p n) :
    (findStepIndexFrom steps p n).toNat < n ∧
      (steps.getD (findStepIndexFrom steps p n).toNat stepDefault).progress ≤
        p := by
  induction n with
  | zero => simp [findStepIndexFrom] at h
  | succ k ih =>
    by_cases hcond : (steps.getD k stepDefault).progress ≤ p
    · rw [findStepIndexFrom, if_pos hcond] at h ⊢
      refine ⟨?_, ?_⟩
      · simp
      · simpa using hcond
    · rw [findStepIndexFrom, if_neg hcond] at h ⊢
      exact ⟨Nat.lt_succ_of_lt (ih h).1, (ih h).2⟩

/-- `updateProgress` stores the frame's progress value unchanged. -/
theorem updateProgress_progress (p : Int) (m : String) (st : WorkflowState) :
    (updateProgress p m st).progress = p := rfl

/-- `updateProgress` never touches the status field. -/
theorem updateProgress_status (p : Int) (m : String) (st : WorkflowState) :
    (updateProgress p m st).status = st.status := rfl

/-- The status `updateProgress` assigns to the step at an in-bounds index. -/
theorem updateProgress_steps_getD (p : Int) (m : String) (st : WorkflowState)
    (j : Nat) (hj : j < st.steps.length) :
    ((updateProgress p m st).steps.getD j stepDefault).status =
      stepStatusAt (decide (p ≥ 100)) (currentStepIndexOf st.steps p) j := by
  unfold updateProgress
  simp only
  rw [getD_mapIdx _ _ _ _ hj]

/-- With `progress ≥ 100`, every step produced by `updateProgress` is
completed. -/
theorem updateProgress_all_completed (p : Int) (hp : p ≥ 100)
    (m : String) (st : WorkflowState) :
    ((updateProgress p m st).steps.all
      fun s => s.status == StepStatus.completed) = true := by
  have hdec : decide (p ≥ 100) = true := decide_eq_true hp
  unfold updateProgress
  simp only [List.all_eq_true, List.mapIdx_eq_enum_map, List.mem_map]
  rintro x ⟨⟨i, a⟩, _, rfl⟩
  simp [Function.uncurry, stepStatusAt, hdec]

/-! ## Claims -/

/-- C1 counterexample: starting from a running store, a `progress` frame of
40 followed by one of 30 leaves stored progress 30, strictly below the
previously stored 40 — the stored progress regresses, so `updateProgress`
does not behave as `newProgress = max(newProgress, previousProgress)`. -/
theorem claim_C1_counterexample :
    (handleMessage (.progressMsg (some 40) (some "a")) ⟨1000, "r"⟩
        { initialState with status := .running }).progress = 40 ∧
    (handleMessage (.progressMsg (some 30) (some "b")) ⟨1001, "s"⟩
        (handleMessage (.progressMsg (some 40) (some "a")) ⟨1000, "r"⟩
          { initialState with status := .running })).progress = 30 ∧
    ¬ ((30 : Int) = max 30 40) := by
  refine ⟨rfl, rfl, by decide⟩

/-- C1 (amended): while running, `updateProgress` stores the frame's progress
value unconditionally — the stored progress after a `progress` frame equals
the frame's value, with no `max` against the previous value, so a lower
frame value regresses the observed progress. -/
theorem claim_C1_amended (p : Int) (msg : Option String) (meta : LogMeta)
    (st : WorkflowState) :
    (handleMessage (.progressMsg (some p) msg) meta st).progress = p ∧
    (updateProgress p (msg.getD "") st).progress = p := by
  constructor
  · simp only [handleMessage]
    split
    · rfl
    · rfl
  · rfl

/-- C2: a `complete` frame forces stored progress to 100, status to
`completed`, stores the frame's result payload, and marks every step in the
steps list `completed`, regardless of the prior state. -/
theorem claim_C2_complete_authoritative (st : WorkflowState) (meta : LogMeta)
    (r : String) :
    (handleMessage (.complete r) meta st).progress = 100 ∧
    (handleMessage (.complete r) meta st).status = .completed ∧
    (handleMessage (.complete r) meta st).result = some r ∧
    ((handleMessage (.complete r) meta st).steps.all
      fun s => s.status == StepStatus.completed) = true := by
  refine ⟨rfl, rfl, rfl, ?_⟩
  show ((updateProgress 100 "Workflow completed successfully" _).steps.all
    fun s => s.status == StepStatus.completed) = true
  exact updateProgress_all_completed 100 (by omega) _ _

/-- Every frame handler preserves the consistency of the `isWaitingForInput`
flag with the presence of a pending interaction. -/
theorem handleMessage_waiting_iff_pending (msg : WSMessage) (meta : LogMeta)
    (st : WorkflowState)
    (h : st.isWaitingForInput = st.pendingInteraction.isSome) :
    (handleMessage msg meta st).isWaitingForInput =
      (handleMessage msg meta st).pendingInteraction.isSome := by
  cases msg with
  | progressMsg p m =>
    cases p with
    | none => exact h
    | some pv =>
      simp only [handleMessage]
      split
      · exact h
      · exact h
  | statusMsg p m s =>
    cases p with
    | none => exact h
    | some pv =>
      simp only [handleMessage]
      split
      · exact h
      · exact h
  | interactionRequired itype title desc data options req => rfl
  | complete r => rfl
  | errorMsg e =>
    simp only [handleMessage]
    split
    · rfl
    · rfl
  | codeChunk c =>
    simp only [handleMessage]
    split
    · exact h
    · exact h
  | fileStart f =>
    simp only [handleMessage]
    split
    · exact h
    · exact h
  | fileEnd f =>
    simp only [handleMessage]
    split
    · exact h
    · exact h
  | heartbeat => exact h

/-- C3 counterexample: from a running store, an `interaction_required` frame
stores the Interaction but leaves the status field at `running` — it never
becomes a `waiting_for_input` status (no such value exists in
`WorkflowStatus`); only the separate `isWaitingForInput` flag is set. -/
theorem claim_C3_counterexample :
    (handleMessage
        (.interactionRequired "plan_review" "Review" "Desc" "" [] true)
        ⟨1000, "r"⟩
        { initialState with status := .running }).pendingInteraction.isSome
      = true ∧
    (handleMessage
        (.interactionRequired "plan_review" "Review" "Desc" "" [] true)
        ⟨1000, "r"⟩
        { initialState with status := .running }).status = .running ∧
    (handleMessage
        (.interactionRequired "plan_review" "Review" "Desc" "" [] true)
        ⟨1000, "r"⟩
        { initialState with status := .running }).isWaitingForInput = true :=
  ⟨rfl, rfl, rfl⟩

/-- C3 (amended): the live-interaction invariant is carried by the boolean
`isWaitingForInput` flag, not the status field: in every state reachable from
the initial state through the frame handler, `isWaitingForInput` equals the
presence of a pending interaction; and an `interaction_required` frame stores
the Interaction, sets `isWaitingForInput` to true, and leaves the status
field unchanged (there is no `waiting_for_input` status value). -/
theorem claim_C3_amended :
    (∀ frames : List (WSMessage × LogMeta),
      (applyFrames frames initialState).isWaitingForInput =
        (applyFrames frames initialState).pendingInteraction.isSome) ∧
    (∀ (itype title desc data : String) (options : List (String × String))
        (req : Bool) (meta : LogMeta) (st : WorkflowState),
      (handleMessage (.interactionRequired itype title desc data options req)
          meta st).pendingInteraction =
        some ⟨itype, title, desc, data, options, req⟩ ∧
      (handleMessage (.interactionRequired itype title desc data options req)
          meta st).isWaitingForInput = true ∧
      (handleMessage (.interactionRequired itype title desc data options req)
          meta st).status = st.status) := by
  constructor
  · intro frames
    suffices h : ∀ st : WorkflowState,
        st.isWaitingForInput = st.pendingInteraction.isSome →
        (applyFrames frames st).isWaitingForInput =
          (applyFrames frames st).pendingInteraction.isSome from
      h initialState rfl
    induction frames with
    | nil => intro st h; exact h
    | cons fm rest ih =>
      intro st h
      exact ih _ (handleMessage_waiting_iff_pending fm.1 fm.2 st h)
  · intro itype title desc data options req meta st
    exact ⟨rfl, rfl, rfl⟩

/-- C4 counterexample: re-applying the identical `progress` frame (value 40,
message "Planning", even the same timestamp) appends a second activity-log
entry with the same message, progress and timestamp — the log does contain a
duplicate entry for the repeated frame. -/
theorem claim_C4_counterexample :
    (handleMessage (.progressMsg (some 40) (some "Planning")) ⟨1000, "r"⟩
      { initialState with status := .running }).activityLogs.length = 1 ∧
    ((handleMessage (.progressMsg (some 40) (some "Planning")) ⟨1000, "r"⟩
        (handleMessage (.progressMsg (some 40) (some "Planning")) ⟨1000, "r"⟩
          { initialState with status := .running })).activityLogs.map
      fun e => (e.message, e.progress, e.timestamp)) =
      [("Planning", 40, 1000), ("Planning", 40, 1000)] :=
  ⟨rfl, rfl⟩

/-- C4 (amended): re-applying an already-seen `progress` frame (same value,
same non-blank message) does not change the status field, but it does append
a second activity-log entry with the same message and progress (under a fresh
id and timestamp) — `addActivityLog` performs no deduplication. -/
theorem claim_C4_amended (p : Int) (s : String) (meta meta' : LogMeta)
    (st : WorkflowState) (h : msgLoggable (some s) = true) :
    (handleMessage (.progressMsg (some p) (some s)) meta'
        (handleMessage (.progressMsg (some p) (some s)) meta st)).status =
      (handleMessage (.progressMsg (some p) (some s)) meta st).status ∧
    (handleMessage (.progressMsg (some p) (some s)) meta'
        (handleMessage (.progressMsg (some p) (some s)) meta st)).activityLogs
      = (handleMessage (.progressMsg (some p) (some s)) meta st).activityLogs
        ++ [⟨"log-" ++ toString meta'.now ++ "-" ++ meta'.rand, meta'.now,
             s, p, .progress⟩] := by
  constructor
  · conv_lhs => rw [handleMessage]
    split
    · rfl
    · rfl
  · simp only [handleMessage, h, if_true]
    rfl

/-- Witness for C4 (amended) at frame `(40, "Planning")` applied twice. -/
theorem claim_C4_witness :
    msgLoggable (some "Planning") = true ∧
    ((handleMessage (.progressMsg (some 40) (some "Planning")) ⟨2000, "q"⟩
        (handleMessage (.progressMsg (some 40) (some "Planning")) ⟨1000, "r"⟩
          { initialState with status := .running })).status =
      (handleMessage (.progressMsg (some 40) (some "Planning")) ⟨1000, "r"⟩
        { initialState with status := .running }).status ∧
    (handleMessage (.progressMsg (some 40) (some "Planning")) ⟨2000, "q"⟩
        (handleMessage (.progressMsg (some 40) (some "Planning")) ⟨1000, "r"⟩
          { initialState with status := .running })).activityLogs =
      (handleMessage (.progressMsg (some 40) (some "Planning")) ⟨1000, "r"⟩
        { initialState with status := .running }).activityLogs ++
        [⟨"log-" ++ toString (2000 : Nat) ++ "-" ++ "q", 2000, "Planning", 40,
          .progress⟩]) :=
  ⟨rfl, claim_C4_amended 40 "Planning" ⟨1000, "r"⟩ ⟨2000, "q"⟩
    { initialState with status := .running } rfl⟩

/-- C5: an `error` frame whose text is exactly the sentinel "Task not found"
performs a full reset to the initial idle state (activeTaskId null, status
idle, progress 0, inert persisted projection) and surfaces no error; an
`error` frame with any other text sets status `error` and stores the text
verbatim. -/
theorem claim_C5_error_frames :
    (∀ (meta : LogMeta) (st : WorkflowState),
      handleMessage (.errorMsg "Task not found") meta st = initialState ∧
      partialize (handleMessage (.errorMsg "Task not found") meta st) =
        ⟨none, none, .idle, 0, [], false⟩) ∧
    (∀ (meta : LogMeta) (st : WorkflowState) (e : String),
      e ≠ "Task not found" →
      (handleMessage (.errorMsg e) meta st).status = .error ∧
      (handleMessage (.errorMsg e) meta st).error = some e) := by
  constructor
  · intro meta st
    exact ⟨rfl, rfl⟩
  · intro meta st e he
    simp only [handleMessage, if_neg he]
    constructor
    · simp only [addActivityLog, clearInteraction, setError, setStatus]
      split
      · rfl
      · rfl
    · rfl

/-- Witness for C5 at the non-sentinel error text "OOM". -/
theorem claim_C5_witness :
    "OOM" ≠ "Task not found" ∧
    ((handleMessage (.errorMsg "OOM") ⟨1000, "r"⟩
        { initialState with status := .running }).status = .error ∧
     (handleMessage (.errorMsg "OOM") ⟨1000, "r"⟩
        { initialState with status := .running }).error = some "OOM") :=
  ⟨by decide, claim_C5_error_frames.2 ⟨1000, "r"⟩
    { initialState with status := .running } "OOM" (by decide)⟩

/-- C6: with a persisted non-empty task id and a non-terminal status, any
failure of the recovery-time status query makes the Recovery Coordinator
perform a full reset — final state has a null activeTaskId and idle status —
and surface no error. -/
theorem claim_C6_recovery_failure_resets (st : WorkflowState)
    (rs : RecoveryState) (err : String)
    (h1 : strTruthy st.activeTaskId = true)
    (h2 : st.status ≠ .idle) (h3 : st.status ≠ .completed)
    (h4 : st.status ≠ .error) :
    recoverTask st rs (Except.error err) =
      (initialState, ⟨false, none, none⟩) ∧
    (recoverTask st rs (Except.error err)).1.activeTaskId = none ∧
    (recoverTask st rs (Except.error err)).1.status = .idle ∧
    (recoverTask st rs (Except.error err)).2.error = none := by
  have heq : recoverTask st rs (Except.error err) =
      (initialState, ⟨false, none, none⟩) := by
    unfold recoverTask
    rw [if_neg]
    · rfl
    · simp [h1, h2, h3, h4]
  refine ⟨heq, ?_, ?_, ?_⟩
  · rw [heq]; rfl
  · rw [heq]; rfl
  · rw [heq]

/-- Witness for C6: a persisted running task whose status query fails with a
network error collapses to the initial idle state with no surfaced error. -/
theorem claim_C6_witness :
    strTruthy (setActiveTask (some "t7") none
      (setStatus .running initialState)).activeTaskId = true ∧
    (setActiveTask (some "t7") none
      (setStatus .running initialState)).status ≠ .idle ∧
    recoverTask (setActiveTask (some "t7") none
        (setStatus .running initialState)) ⟨false, none, none⟩
      (Except.error "network error") = (initialState, ⟨false, none, none⟩) :=
  ⟨rfl, by decide,
    (claim_C6_recovery_failure_resets
      (setActiveTask (some "t7") none (setStatus .running initialState))
      ⟨false, none, none⟩ "network error" rfl (by decide) (by decide)
      (by decide)).1⟩

/-- C7: from a persisted running task, a status query answering `completed`
makes the Recovery Coordinator finalize: progress 100, status `completed`,
all steps completed, the returned result stored, no error surfaced, and both
computed subscription endpoints are null, so no Channel is opened. -/
theorem claim_C7_recovery_completed (st : WorkflowState) (rs : RecoveryState)
    (ts : TaskStatusResponse)
    (h1 : strTruthy st.activeTaskId = true)
    (h2 : st.status = .running)
    (h3 : ts.status = "completed") :
    (recoverTask st rs (Except.ok ts)).1.progress = 100 ∧
    (recoverTask st rs (Except.ok ts)).1.status = .completed ∧
    (recoverTask st rs (Except.ok ts)).1.result = ts.result ∧
    ((recoverTask st rs (Except.ok ts)).1.steps.all
      fun s => s.status == StepStatus.completed) = true ∧
    (recoverTask st rs (Except.ok ts)).1.activeTaskId = st.activeTaskId ∧
    workflowUrl (recoverTask st rs (Except.ok ts)).1.activeTaskId
      (recoverTask st rs (Except.ok ts)).1.status = none ∧
    codeStreamUrl (recoverTask st rs (Except.ok ts)).1.activeTaskId
      (recoverTask st rs (Except.ok ts)).1.status = none ∧
    (recoverTask st rs (Except.ok ts)).2.error = none := by
  have heq : recoverTask st rs (Except.ok ts) =
      (setNeedsRecovery false (setResult ts.result
        (setStatus .completed (updateProgress 100 "Completed"
          (if st.workflowType = some .paperToCode then
            setSteps PAPER_TO_CODE_STEPS st
          else if st.workflowType = some .chatPlanning then
            setSteps CHAT_PLANNING_STEPS st
          else st)))),
       ⟨false, st.activeTaskId, none⟩) := by
    unfold recoverTask
    rw [if_neg]
    · simp [h3]
    · simp [h1, h2]
  have hid : (if st.workflowType = some WorkflowType.paperToCode then
      setSteps PAPER_TO_CODE_STEPS st
    else if st.workflowType = some WorkflowType.chatPlanning then
      setSteps CHAT_PLANNING_STEPS st
    else st).activeTaskId = st.activeTaskId := by
    split
    · rfl
    · split
      · rfl
      · rfl
  rw [heq]
  refine ⟨rfl, rfl, rfl, ?_, hid, ?_, ?_, rfl⟩
  · exact updateProgress_all_completed 100 (by omega) "Completed" _
  · simp [workflowUrl, isFinished, setNeedsRecovery, setResult, setStatus,
      updateProgress]
  · simp [codeStreamUrl, isFinished, setNeedsRecovery, setResult, setStatus,
      updateProgress]

/-- Witness for C7: a persisted running paper-to-code task whose status query
answers completed with a stored result. -/
theorem claim_C7_witness :
    strTruthy (setActiveTask (some "t9") (some .paperToCode)
      (setStatus .running initialState)).activeTaskId = true ∧
    (setActiveTask (some "t9") (some .paperToCode)
      (setStatus .running initialState)).status = .running ∧
    ((⟨"completed", 55, "done", some "R", none⟩ :
      TaskStatusResponse)).status = "completed" ∧
    (recoverTask (setActiveTask (some "t9") (some .paperToCode)
        (setStatus .running initialState)) ⟨false, none, none⟩
      (Except.ok ⟨"completed", 55, "done", some "R", none⟩)).1.progress =
        100 ∧
    workflowUrl (recoverTask (setActiveTask (some "t9") (some .paperToCode)
          (setStatus .running initialState)) ⟨false, none, none⟩
        (Except.ok ⟨"completed", 55, "done", some "R", none⟩)).1.activeTaskId
      (recoverTask (setActiveTask (some "t9") (some .paperToCode)
          (setStatus .running initialState)) ⟨false, none, none⟩
        (Except.ok ⟨"completed", 55, "done", some "R", none⟩)).1.status =
        none := by
  have h := claim_C7_recovery_completed
    (setActiveTask (some "t9") (some .paperToCode)
      (setStatus .running initialState))
    ⟨false, none, none⟩ ⟨"completed", 55, "done", some "R", none⟩
    rfl rfl rfl
  exact ⟨rfl, rfl, rfl, h.1, h.2.2.2.2.2.1⟩

/-- C9: the persisted projection carries the live values of activeTaskId,
workflowType, status, progress, steps and isWaitingForInput exactly when the
status is `running` or input is awaited; in every other state the persisted
blob is the inert shape (null task id, null workflow type, idle status,
progress 0, empty steps). -/
theorem claim_C9_partialize (st : WorkflowState) :
    ((st.status = .running ∨ st.isWaitingForInput = true) →
      partialize st = ⟨st.activeTaskId, st.workflowType, st.status,
        st.progress, st.steps, st.isWaitingForInput⟩) ∧
    (st.status ≠ .running → st.isWaitingForInput = false →
      partialize st = ⟨none, none, .idle, 0, [], false⟩) := by
  constructor
  · intro h
    have hb : (st.status = WorkflowStatus.running || st.isWaitingForInput)
        = true := by
      rcases h with h | h
      · simp [h]
      · simp [h]
    unfold partialize
    simp [hb]
  · intro h1 h2
    unfold partialize
    simp [h1, h2]

/-- Witness for C9: a running state persists live values; a completed state
persists the inert shape. -/
theorem claim_C9_witness :
    ((setActiveTask (some "t3") none
        (setStatus .running initialState)).status = .running ∨
      (setActiveTask (some "t3") none
        (setStatus .running initialState)).isWaitingForInput = true) ∧
    partialize (setActiveTask (some "t3") none
        (setStatus .running initialState)) =
      ⟨some "t3", none, .running, 0, [], false⟩ ∧
    (setActiveTask (some "t3") none
      (setStatus .completed initialState)).status ≠ .running ∧
    partialize (setActiveTask (some "t3") none
        (setStatus .completed initialState)) =
      ⟨none, none, .idle, 0, [], false⟩ := by
  refine ⟨Or.inl rfl, ?_, by decide, ?_⟩
  · exact (claim_C9_partialize _).1 (Or.inl rfl)
  · exact (claim_C9_partialize _).2 (by decide) rfl

/-- A state with the intentional-close flag down and no pending timer stays
that way under every transport event. -/
theorem wsStep_preserves_closed (opts : WSOptions) (e : WSEvent) (s : WSState)
    (h1 : s.shouldReconnect = false) (h2 : s.pendingReconnect = none) :
    (wsStep opts s e).shouldReconnect = false ∧
      (wsStep opts s e).pendingReconnect = none := by
  cases e with
  | evOpen => exact ⟨h1, h2⟩
  | evClose => simp [wsStep, wsOnClose, h1, h2]
  | evTimerFire => simp [wsStep, wsTimerFire, h1, h2]

/-- C10: under the options `useStreaming` uses (reconnect enabled, interval
3000 ms, maximum 50 attempts), a non-intentional close schedules a reconnect
exactly when the intentional-close flag is up and the attempt counter is
below 50, always after the fixed 3000 ms interval; a successful open resets
the counter to zero; and after an intentional `disconnect()` no reconnect is
ever scheduled across any sequence of further transport events. -/
theorem claim_C10_reconnect_loop :
    (∀ s : WSState,
      (wsOnClose defaultWSOptions s).pendingReconnect =
        if s.shouldReconnect = true ∧ s.reconnectAttempts < 50 then some 3000
        else s.pendingReconnect) ∧
    (∀ s : WSState, (wsOnOpen s).reconnectAttempts = 0) ∧
    (∀ (s : WSState) (evs : List WSEvent),
      (wsRun defaultWSOptions (wsDisconnect s) evs).pendingReconnect =
        none) := by
  refine ⟨?_, fun s => rfl, ?_⟩
  · intro s
    simp only [wsOnClose, defaultWSOptions]
    split_ifs with hb hp hp
    · rfl
    · exfalso
      simp only [Bool.and_eq_true, decide_eq_true_eq] at hb
      exact hp ⟨hb.1.1, hb.2⟩
    · exfalso
      rcases hp with ⟨hs, hn⟩
      simp [hs, hn] at hb
    · rfl
  · intro s evs
    suffices h : ∀ t : WSState, t.shouldReconnect = false →
        t.pendingReconnect = none →
        (wsRun defaultWSOptions t evs).pendingReconnect = none from
      h (wsDisconnect s) rfl rfl
    induction evs with
    | nil => intro t h1 h2; exact h2
    | cons e rest ih =>
      intro t h1 h2
      have hp := wsStep_preserves_closed defaultWSOptions e t h1 h2
      exact ih (wsStep defaultWSOptions t e) hp.1 hp.2

/-- Below the current step index, the assigned status is completed. -/
theorem stepStatusAt_false_lt (i : Int) (j : Nat) (h : (j : Int) < i) :
    stepStatusAt false i j = .completed := by
  simp [stepStatusAt, h]

/-- At the current step index, the assigned status is active. -/
theorem stepStatusAt_false_eq (i : Int) (j : Nat) (h : (j : Int) = i) :
    stepStatusAt false i j = .active := by
  have h1 : ¬((j : Int) < i) := by omega
  simp [stepStatusAt, h1, h]

/-- Above the current step index, the assigned status is pending. -/
theorem stepStatusAt_false_gt (i : Int) (j : Nat) (h : i < (j : Int)) :
    stepStatusAt false i j = .pending := by
  have h1 : ¬((j : Int) < i) := by omega
  have h2 : ¬((j : Int) = i) := by omega
  simp [stepStatusAt, h1, h2]

/-- A step is assigned active only at the current step index. -/
theorem stepStatusAt_active_imp (d : Bool) (i : Int) (j : Nat)
    (h : stepStatusAt d i j = .active) : (j : Int) = i := by
  by_contra hne
  cases d with
  | true => exact absurd h (by simp [stepStatusAt])
  | false =>
    rcases lt_or_gt_of_ne hne with hlt | hgt
    · rw [stepStatusAt_false_lt i j hlt] at h
      exact absurd h (by decide)
    · rw [stepStatusAt_false_gt i j hgt] at h
      exact absurd h (by decide)

/-- C8: the step-status computation of `updateProgress` is a pure function
of the progress value and the ordered threshold list: the produced statuses
do not depend on the message; with `i` the greatest index whose threshold is
at most the progress (the value of the downward scan), every step below `i`
is completed, step `i` is active unless progress is at least 100 (in which
case every step is completed), every step above `i` is pending; `i` really
is the greatest threshold-satisfying index; and at most one step is ever
active. -/
theorem claim_C8_step_mapper :
    (∀ (p : Int) (m m' : String) (st : WorkflowState),
      (updateProgress p m st).steps = (updateProgress p m' st).steps) ∧
    (∀ (p : Int) (m : String) (st : WorkflowState) (j : Nat),
      j < st.steps.length →
      (p ≥ 100 →
        ((updateProgress p m st).steps.getD j stepDefault).status =
          .completed) ∧
      (p < 100 →
        ((j : Int) < currentStepIndexOf st.steps p →
          ((updateProgress p m st).steps.getD j stepDefault).status =
            .completed) ∧
        ((j : Int) = currentStepIndexOf st.steps p →
          ((updateProgress p m st).steps.getD j stepDefault).status =
            .active) ∧
        (currentStepIndexOf st.steps p < (j : Int) →
          ((updateProgress p m st).steps.getD j stepDefault).status =
            .pending))) ∧
    (∀ (steps : List WorkflowStep) (p : Int),
      (∀ j : Nat, j < steps.length →
        (steps.getD j stepDefault).progress ≤ p →
        (j : Int) ≤ currentStepIndexOf steps p) ∧
      (0 ≤ currentStepIndexOf steps p →
        (currentStepIndexOf steps p).toNat < steps.length ∧
        (steps.getD (currentStepIndexOf steps p).toNat stepDefault).progress
          ≤ p) ∧
      currentStepIndexOf steps p < (steps.length : Int)) ∧
    (∀ (p : Int) (m : String) (st : WorkflowState) (j k : Nat),
      j < st.steps.length → k < st.steps.length →
      ((updateProgress p m st).steps.getD j stepDefault).status = .active →
      ((updateProgress p m st).steps.getD k stepDefault).status = .active →
      j = k) := by
  refine ⟨?_, ?_, ?_, ?_⟩
  · intro p m m' st
    rfl
  · intro p m st j hj
    rw [updateProgress_steps_getD p m st j hj]
    constructor
    · intro hp
      rw [decide_eq_true hp]
      rfl
    · intro hp
      have hd : decide (p ≥ 100) = false := decide_eq_false (by omega)
      rw [hd]
      exact ⟨fun h => stepStatusAt_false_lt _ _ h,
        fun h => stepStatusAt_false_eq _ _ h,
        fun h => stepStatusAt_false_gt _ _ h⟩
  · intro steps p
    refine ⟨?_, ?_, ?_⟩
    · intro j hj hle
      exact le_findStepIndexFrom steps p steps.length j hj hle
    · intro h
      exact findStepIndexFrom_spec_mem steps p steps.length h
    · exact findStepIndexFrom_lt steps p steps.length
  · intro p m st j k hj hk haj hak
    rw [updateProgress_steps_getD p m st j hj] at haj
    rw [updateProgress_steps_getD p m st k hk] at hak
    have h1 := stepStatusAt_active_imp _ _ _ haj
    have h2 := stepStatusAt_active_imp _ _ _ hak
    omega

/-- Witness for C8 on the paper-to-code template at progress 55: the scan
selects index 4 (threshold 50), and that step is the active one. -/
theorem claim_C8_witness :
    (4 : Nat) < (setSteps PAPER_TO_CODE_STEPS initialState).steps.length ∧
    ((55 : Int) < 100) ∧
    ((4 : Int) =
      currentStepIndexOf (setSteps PAPER_TO_CODE_STEPS initialState).steps
        55) ∧
    ((updateProgress 55 "Indexing"
        (setSteps PAPER_TO_CODE_STEPS initialState)).steps.getD 4
      stepDefault).status = .active :=
  ⟨by decide, by decide, rfl,
    ((claim_C8_step_mapper.2.1 55 "Indexing"
        (setSteps PAPER_TO_CODE_STEPS initialState) 4 (by decide)).2
      (by decide)).2.1 rfl⟩

end DeepCode
